import Mathlib

/-!
Verification of the orbital-mechanics subsystem of the Nebula earth-observation
platform.  The definitions below are a shallow embedding of the Python sources
backend/app/services/orbital_mechanics.py,
backend/app/services/satellite_physics.py and
backend/app/services/constellation_manager.py.  Python floats are idealised as
real numbers; Python dictionaries with possibly missing keys are modelled with
Option fields; a try/except block that swallows a math domain error (ValueError
from math.sqrt of a negative number, ZeroDivisionError from float division by
zero, KeyError from a missing dictionary key) is modelled by an explicit test
for the exact condition under which the wrapped computation raises.
-/

namespace Nebula

/-- 3-vectors, standing for the length-3 numpy arrays of the source. -/
abbrev V3 := ℝ × ℝ × ℝ

open Classical

/-- Dot product of two 3-vectors (np.dot). -/
def dot3 (a b : V3) : ℝ := a.1 * b.1 + a.2.1 * b.2.1 + a.2.2 * b.2.2

/-- Euclidean norm of a 3-vector (np.linalg.norm). -/
noncomputable def norm3 (a : V3) : ℝ := Real.sqrt (dot3 a a)

/-- Componentwise difference of 3-vectors. -/
def sub3 (a b : V3) : V3 := (a.1 - b.1, a.2.1 - b.2.1, a.2.2 - b.2.2)

/-- Componentwise sum of 3-vectors. -/
def add3 (a b : V3) : V3 := (a.1 + b.1, a.2.1 + b.2.1, a.2.2 + b.2.2)

/-- Scalar multiple of a 3-vector. -/
def smul3 (c : ℝ) (a : V3) : V3 := (c * a.1, c * a.2.1, c * a.2.2)

/-- OrbitalMechanics.mu_earth, km^3/s^2. -/
noncomputable def mu_earth : ℝ := 398600.4418

/-- OrbitalMechanics.earth_radius, km (also used in satellite_physics.py). -/
noncomputable def earth_radius : ℝ := 6371

/-!  ### check_collision_risk  -/

/-- Result dictionary of OrbitalMechanics.check_collision_risk. -/
structure CollisionResult where
  collision_risk : Bool
  closest_approach_distance : ℝ
  time_to_closest_approach : ℝ
  minimum_separation : ℝ
  risk_level : String

/-- Embedding of OrbitalMechanics.check_collision_risk.  The source computes the
relative state, and when the relative speed is positive the linearised time of
closest approach, the separation there, and the risk flag; with zero relative
velocity it returns the fixed dictionary of the else branch.  No operation in
either branch can raise, so the except branch of the source is dead here. -/
noncomputable def check_collision_risk (sat1_pos sat1_vel sat2_pos sat2_vel : V3)
    (sat1_radius sat2_radius time_horizon : ℝ) : CollisionResult :=
  let r_rel := sub3 sat2_pos sat1_pos
  let v_rel := sub3 sat2_vel sat1_vel
  let min_separation := sat1_radius + sat2_radius
  if 0 < norm3 v_rel then
    let t_ca := -(dot3 r_rel v_rel) / (norm3 v_rel) ^ 2
    let r_ca := add3 r_rel (smul3 t_ca v_rel)
    let d_ca := norm3 r_ca
    { collision_risk := decide (d_ca < min_separation ∧ 0 ≤ t_ca ∧ t_ca ≤ time_horizon * 3600)
      closest_approach_distance := d_ca
      time_to_closest_approach := t_ca
      minimum_separation := min_separation
      risk_level := if d_ca < min_separation * 10 then "high" else "low" }
  else
    { collision_risk := false
      closest_approach_distance := norm3 r_rel
      time_to_closest_approach := 0
      minimum_separation := min_separation
      risk_level := "low" }

/-!  ### calculate_hohmann_transfer  -/

/-- Result dictionary of OrbitalMechanics.calculate_hohmann_transfer. -/
structure HohmannTransfer where
  semi_major_axis : ℝ
  eccentricity : ℝ
  delta_v1 : ℝ
  delta_v2 : ℝ
  delta_v_total : ℝ
  transfer_time : ℝ
  period : ℝ

/-- Body of OrbitalMechanics.calculate_hohmann_transfer (the computation inside
the try block). -/
noncomputable def hohmann_core (r1 r2 : ℝ) : HohmannTransfer :=
  let a_transfer := (r1 + r2) / 2
  let v1_transfer := Real.sqrt (mu_earth * (2 / r1 - 1 / a_transfer))
  let v2_transfer := Real.sqrt (mu_earth * (2 / r2 - 1 / a_transfer))
  let v1_circular := Real.sqrt (mu_earth / r1)
  let v2_circular := Real.sqrt (mu_earth / r2)
  let dv1 := |v1_transfer - v1_circular|
  let dv2 := |v2_circular - v2_transfer|
  let period := 2 * Real.pi * Real.sqrt (a_transfer ^ 3 / mu_earth)
  { semi_major_axis := a_transfer
    eccentricity := (r2 - r1) / (r2 + r1)
    delta_v1 := dv1
    delta_v2 := dv2
    delta_v_total := dv1 + dv2
    transfer_time := period / 2
    period := period }

/-- Embedding of OrbitalMechanics.calculate_hohmann_transfer.  The source wraps
the computation in try/except and returns an empty dictionary when a math
domain error occurs; the guard below is exactly the condition under which some
operation of the body raises (division by zero in 2/r1, 2/r2 or 1/a_transfer,
or math.sqrt of a negative argument). -/
noncomputable def calculate_hohmann_transfer (r1 r2 : ℝ) : Option HohmannTransfer :=
  if r1 = 0 ∨ r2 = 0 ∨ r1 + r2 = 0 ∨
      mu_earth * (2 / r1 - 1 / ((r1 + r2) / 2)) < 0 ∨
      mu_earth * (2 / r2 - 1 / ((r1 + r2) / 2)) < 0 ∨
      mu_earth / r1 < 0 ∨ mu_earth / r2 < 0 ∨ ((r1 + r2) / 2) ^ 3 / mu_earth < 0 then
    none
  else
    some (hohmann_core r1 r2)

/-!  ### calculate_station_keeping  -/

/-- The three element fields of the orbit dictionaries that
OrbitalMechanics.calculate_station_keeping reads. -/
structure OrbitDict where
  semi_major_axis : ℝ
  eccentricity : ℝ
  inclination : ℝ

/-- Result dictionary of OrbitalMechanics.calculate_station_keeping.  The three
Option fields are the delta_v entries of the corrections dictionary (none when
the corresponding key is absent); the direction strings of the source carry no
information beyond the sign tests and are omitted. -/
structure StationKeeping where
  sma_correction : Option ℝ
  inclination_correction : Option ℝ
  eccentricity_correction : Option ℝ
  total_delta_v : ℝ
  station_keeping_required : Bool

/-- Embedding of OrbitalMechanics.calculate_station_keeping.  math.radians x is
x * pi / 180.  The guard is the exact condition under which the body raises
(ZeroDivisionError in mu/(2 r^2) for r = 0, ZeroDivisionError or a sqrt domain
error in sqrt(mu/a) for a ≤ 0), in which case the source returns an empty
dictionary.  total_delta_v sums the delta_v values of the corrections present,
and station_keeping_required is len(corrections) > 0. -/
noncomputable def calculate_station_keeping (current_orbit target_orbit : OrbitDict) :
    Option StationKeeping :=
  let da := target_orbit.semi_major_axis - current_orbit.semi_major_axis
  let di := (target_orbit.inclination - current_orbit.inclination) * Real.pi / 180
  let de := target_orbit.eccentricity - current_orbit.eccentricity
  if (0.1 < |da| ∧ current_orbit.semi_major_axis = 0) ∨
      ((0.1 * Real.pi / 180 < |di| ∨ 0.001 < |de|) ∧ current_orbit.semi_major_axis ≤ 0) then
    none
  else
    let r := current_orbit.semi_major_axis
    let corr_a : Option ℝ := if 0.1 < |da| then some |mu_earth / (2 * r * r) * da| else none
    let v := Real.sqrt (mu_earth / current_orbit.semi_major_axis)
    let corr_i : Option ℝ :=
      if 0.1 * Real.pi / 180 < |di| then some (2 * v * Real.sin (|di| / 2)) else none
    let corr_e : Option ℝ := if 0.001 < |de| then some (v * |de|) else none
    some { sma_correction := corr_a
           inclination_correction := corr_i
           eccentricity_correction := corr_e
           total_delta_v := corr_a.getD 0 + corr_i.getD 0 + corr_e.getD 0
           station_keeping_required := corr_a.isSome || corr_i.isSome || corr_e.isSome }

/-!  ### keplerian_to_cartesian  -/

/-- The orbital-element dictionary consumed by
OrbitalMechanics.keplerian_to_cartesian; a none field models a missing key. -/
structure ElementsDict where
  semi_major_axis : Option ℝ
  eccentricity : Option ℝ
  inclination : Option ℝ
  right_ascension : Option ℝ
  argument_of_perigee : Option ℝ
  mean_anomaly : Option ℝ

/-- Application of the z-axis rotation matrix of the source to a vector. -/
noncomputable def rot_z (θ : ℝ) (v : V3) : V3 :=
  (Real.cos θ * v.1 - Real.sin θ * v.2.1, Real.sin θ * v.1 + Real.cos θ * v.2.1, v.2.2)

/-- Application of the x-axis rotation matrix of the source to a vector. -/
noncomputable def rot_x (θ : ℝ) (v : V3) : V3 :=
  (v.1, Real.cos θ * v.2.1 - Real.sin θ * v.2.2, Real.sin θ * v.2.1 + Real.cos θ * v.2.2)

/-- Embedding of OrbitalMechanics.keplerian_to_cartesian.  The source reads the
six element keys, computes the perifocal state and rotates it into the ECI
frame through R_z(raan) R_x(i) R_z(argp); any exception (KeyError for a missing
key, ZeroDivisionError when 1 + e cos nu = 0, sqrt domain error when the
semi-latus rectum p = a (1 - e^2) is nonpositive) is caught and the pair of
zero vectors is returned. -/
noncomputable def keplerian_to_cartesian (orbital_elements : ElementsDict) : V3 × V3 :=
  match orbital_elements.semi_major_axis, orbital_elements.eccentricity,
      orbital_elements.inclination, orbital_elements.right_ascension,
      orbital_elements.argument_of_perigee, orbital_elements.mean_anomaly with
  | some a, some e, some i_deg, some raan_deg, some argp_deg, some nu_deg =>
    let i := i_deg * Real.pi / 180
    let raan := raan_deg * Real.pi / 180
    let argp := argp_deg * Real.pi / 180
    let nu := nu_deg * Real.pi / 180
    let p := a * (1 - e * e)
    if p ≤ 0 ∨ 1 + e * Real.cos nu = 0 then ((0, 0, 0), (0, 0, 0))
    else
      let r := p / (1 + e * Real.cos nu)
      let r_pf : V3 := (r * Real.cos nu, r * Real.sin nu, 0)
      let v_pf : V3 :=
        (-Real.sqrt (mu_earth / p) * Real.sin nu, Real.sqrt (mu_earth / p) * (e + Real.cos nu), 0)
      (rot_z raan (rot_x i (rot_z argp r_pf)), rot_z raan (rot_x i (rot_z argp v_pf)))
  | _, _, _, _, _, _ => ((0, 0, 0), (0, 0, 0))

/-- The invalid element set of Scenario D of the specification: eccentricity
1.2 on an otherwise ordinary LEO element set. -/
noncomputable def scenario_d_elements : ElementsDict :=
  { semi_major_axis := some 7000
    eccentricity := some 1.2
    inclination := some 51.6
    right_ascension := some 0
    argument_of_perigee := some 0
    mean_anomaly := some 0 }

/-!  ## Helper lemmas  -/

lemma sub3_self (v : V3) : sub3 v v = (0, 0, 0) := by
  simp [sub3]

lemma norm3_triple_zero : norm3 ((0 : ℝ), (0 : ℝ), (0 : ℝ)) = 0 := by
  simp [norm3, dot3]

lemma hohmann_defined {r1 r2 : ℝ} (h1 : 0 < r1) (h2 : 0 < r2) :
    calculate_hohmann_transfer r1 r2 = some (hohmann_core r1 r2) := by
  have hmu : (0 : ℝ) < mu_earth := by norm_num [mu_earth]
  have ha : (0 : ℝ) < (r1 + r2) / 2 := by linarith
  have hinv : 1 / ((r1 + r2) / 2) = 2 / (r1 + r2) := one_div_div (r1 + r2) 2
  have hle1 : 2 / (r1 + r2) ≤ 2 / r1 :=
    div_le_div_of_nonneg_left (by norm_num) h1 (by linarith)
  have hle2 : 2 / (r1 + r2) ≤ 2 / r2 :=
    div_le_div_of_nonneg_left (by norm_num) h2 (by linarith)
  unfold calculate_hohmann_transfer
  rw [if_neg]
  push_neg
  refine ⟨ne_of_gt h1, ne_of_gt h2, by positivity, ?_, ?_, ?_, ?_, ?_⟩
  · rw [hinv]; exact mul_nonneg hmu.le (by linarith)
  · rw [hinv]; exact mul_nonneg hmu.le (by linarith)
  · exact (div_pos hmu h1).le
  · exact (div_pos hmu h2).le
  · positivity

/-!  ## Claim C1 (Scenario D) and claim C9: keplerian_to_cartesian never raises  -/

/-- C1 (code evaluation at the failing input): on the Scenario D element set
with eccentricity 1.2, keplerian_to_cartesian does not fail; it silently
returns the zero position and velocity vectors, i.e. a state at the centre of
the Earth, contradicting the requirement that propagation fail with an
InvalidElements error. -/
theorem scenario_d_returns_zero_state :
    keplerian_to_cartesian scenario_d_elements = ((0, 0, 0), (0, 0, 0)) := by
  simp only [scenario_d_elements, keplerian_to_cartesian]
  rw [if_pos (Or.inl (by norm_num))]

/-- C9: keplerian_to_cartesian is total, and on every input whose internal
computation fails (a missing element key, a nonpositive semi-latus rectum as
with any eccentricity of magnitude at least one, or a vanishing 1 + e cos nu)
it returns the pair of zero vectors rather than an error. -/
theorem keplerian_failure_returns_zero (d : ElementsDict)
    (h : d.semi_major_axis = none ∨ d.eccentricity = none ∨ d.inclination = none ∨
      d.right_ascension = none ∨ d.argument_of_perigee = none ∨ d.mean_anomaly = none ∨
      ∃ a e nu_deg, d.semi_major_axis = some a ∧ d.eccentricity = some e ∧
        d.mean_anomaly = some nu_deg ∧
        (a * (1 - e * e) ≤ 0 ∨ 1 + e * Real.cos (nu_deg * Real.pi / 180) = 0)) :
    keplerian_to_cartesian d = ((0, 0, 0), (0, 0, 0)) := by
  obtain ⟨f1, f2, f3, f4, f5, f6⟩ := d
  rcases h with h | h | h | h | h | h | ⟨a, e, nu_deg, ha, he, hnu, hg⟩ <;>
    dsimp only at *
  · subst h; rfl
  · subst h; cases f1 <;> rfl
  · subst h; cases f1 <;> cases f2 <;> rfl
  · subst h; cases f1 <;> cases f2 <;> cases f3 <;> rfl
  · subst h; cases f1 <;> cases f2 <;> cases f3 <;> cases f4 <;> rfl
  · subst h; cases f1 <;> cases f2 <;> cases f3 <;> cases f4 <;> cases f5 <;> rfl
  · subst ha; subst he; subst hnu
    cases f3 <;> cases f4 <;> cases f5 <;> try rfl
    simp only [keplerian_to_cartesian]
    rw [if_pos hg]

/-- Witness for C9 at a concrete input with a missing semi-major-axis key. -/
theorem keplerian_failure_returns_zero_witness :
    keplerian_to_cartesian
      { semi_major_axis := none, eccentricity := some 0.001, inclination := some 51.6,
        right_ascension := some 0, argument_of_perigee := some 0, mean_anomaly := some 0 } =
      ((0, 0, 0), (0, 0, 0)) :=
  keplerian_failure_returns_zero _ (Or.inl rfl)

/-!  ## Claims C2 and C3: check_collision_risk  -/

/-- C2 (counterexample): with equal velocities and a current separation of
0.005 km, strictly below the 0.02 km sum of the object radii, the source still
reports collision_risk = false, refuting the claim that in the zero
relative-velocity case the risk flag is true exactly when the current
separation is below the radius sum. -/
theorem collision_zero_relvel_counterexample :
    (check_collision_risk (0, 0, 0) (7.5, 0, 0) (0.005, 0, 0) (7.5, 0, 0)
        0.01 0.01 24).collision_risk = false ∧
    norm3 (sub3 ((0.005 : ℝ), (0 : ℝ), (0 : ℝ)) (0, 0, 0)) < 0.01 + 0.01 := by
  constructor
  · have hv : sub3 ((7.5 : ℝ), (0 : ℝ), (0 : ℝ)) (7.5, 0, 0) = (0, 0, 0) := sub3_self _
    simp only [check_collision_risk, hv, norm3_triple_zero, lt_self_iff_false, if_false]
  · have : norm3 (sub3 ((0.005 : ℝ), (0 : ℝ), (0 : ℝ)) (0, 0, 0)) =
        Real.sqrt (0.005 * 0.005 + 0 * 0 + 0 * 0) := by
      simp [norm3, sub3, dot3]
    rw [this, Real.sqrt_lt' (by norm_num : (0 : ℝ) < 0.01 + 0.01)]
    norm_num

/-- C2 (amended): with zero relative velocity, check_collision_risk always
returns collision_risk = false with the current separation as the
closest-approach distance, zero time to closest approach and a low risk level;
in particular the reported risk never varies with the horizon. -/
theorem collision_zero_relvel_constant (p1 p2 v : V3) (r1 r2 H : ℝ) :
    check_collision_risk p1 v p2 v r1 r2 H =
      { collision_risk := false
        closest_approach_distance := norm3 (sub3 p2 p1)
        time_to_closest_approach := 0
        minimum_separation := r1 + r2
        risk_level := "low" } := by
  simp only [check_collision_risk, sub3_self, norm3_triple_zero, lt_self_iff_false, if_false]

/-- C3: with nonzero relative velocity, the collision risk flag is true exactly
when the linearly extrapolated minimum separation is below the sum of the two
object radii and the time of closest approach lies in [0, horizon], the horizon
being converted from hours to seconds. -/
theorem collision_risk_iff (p1 v1 p2 v2 : V3) (r1 r2 H : ℝ)
    (h : 0 < norm3 (sub3 v2 v1)) :
    ((check_collision_risk p1 v1 p2 v2 r1 r2 H).collision_risk = true ↔
      (norm3 (add3 (sub3 p2 p1)
          (smul3 (-(dot3 (sub3 p2 p1) (sub3 v2 v1)) / (norm3 (sub3 v2 v1)) ^ 2)
            (sub3 v2 v1))) < r1 + r2 ∧
        0 ≤ -(dot3 (sub3 p2 p1) (sub3 v2 v1)) / (norm3 (sub3 v2 v1)) ^ 2 ∧
        -(dot3 (sub3 p2 p1) (sub3 v2 v1)) / (norm3 (sub3 v2 v1)) ^ 2 ≤ H * 3600)) := by
  simp only [check_collision_risk]
  rw [if_pos h]
  simp [decide_eq_true_eq]

/-- Witness for C3 at a concrete pair of states with unit relative velocity. -/
theorem collision_risk_iff_witness :
    0 < norm3 (sub3 ((0 : ℝ), (1 : ℝ), (0 : ℝ)) (0, 0, 0)) ∧
    ((check_collision_risk (0, 0, 0) (0, 0, 0) (1, 0, 0) (0, 1, 0)
        0.01 0.01 24).collision_risk = true ↔
      (norm3 (add3 (sub3 ((1 : ℝ), (0 : ℝ), (0 : ℝ)) (0, 0, 0))
          (smul3 (-(dot3 (sub3 ((1 : ℝ), (0 : ℝ), (0 : ℝ)) (0, 0, 0))
                (sub3 ((0 : ℝ), (1 : ℝ), (0 : ℝ)) (0, 0, 0))) /
              (norm3 (sub3 ((0 : ℝ), (1 : ℝ), (0 : ℝ)) (0, 0, 0))) ^ 2)
            (sub3 ((0 : ℝ), (1 : ℝ), (0 : ℝ)) (0, 0, 0)))) < 0.01 + 0.01 ∧
        0 ≤ -(dot3 (sub3 ((1 : ℝ), (0 : ℝ), (0 : ℝ)) (0, 0, 0))
              (sub3 ((0 : ℝ), (1 : ℝ), (0 : ℝ)) (0, 0, 0))) /
            (norm3 (sub3 ((0 : ℝ), (1 : ℝ), (0 : ℝ)) (0, 0, 0))) ^ 2 ∧
        -(dot3 (sub3 ((1 : ℝ), (0 : ℝ), (0 : ℝ)) (0, 0, 0))
              (sub3 ((0 : ℝ), (1 : ℝ), (0 : ℝ)) (0, 0, 0))) /
            (norm3 (sub3 ((0 : ℝ), (1 : ℝ), (0 : ℝ)) (0, 0, 0))) ^ 2 ≤ 24 * 3600)) := by
  have hv : 0 < norm3 (sub3 ((0 : ℝ), (1 : ℝ), (0 : ℝ)) (0, 0, 0)) := by
    have : norm3 (sub3 ((0 : ℝ), (1 : ℝ), (0 : ℝ)) (0, 0, 0)) = Real.sqrt 1 := by
      simp [norm3, sub3, dot3]
    rw [this, Real.sqrt_one]
    norm_num
  exact ⟨hv, collision_risk_iff (0, 0, 0) (0, 0, 0) (1, 0, 0) (0, 1, 0) 0.01 0.01 24 hv⟩

/-!  ## Claims C5 and C10: calculate_hohmann_transfer  -/

/-- C5: for positive radii the total delta-v and the transfer time of a Hohmann
transfer are unchanged when the two radii are swapped. -/
theorem hohmann_transfer_symmetric (r1 r2 : ℝ) (h1 : 0 < r1) (h2 : 0 < r2) :
    ∃ f g, calculate_hohmann_transfer r1 r2 = some f ∧
      calculate_hohmann_transfer r2 r1 = some g ∧
      f.delta_v_total = g.delta_v_total ∧ f.transfer_time = g.transfer_time := by
  refine ⟨hohmann_core r1 r2, hohmann_core r2 r1,
    hohmann_defined h1 h2, hohmann_defined h2 h1, ?_, ?_⟩
  · simp only [hohmann_core]
    rw [add_comm r2 r1]
    linarith [abs_sub_comm (Real.sqrt (mu_earth * (2 / r2 - 1 / ((r1 + r2) / 2))))
        (Real.sqrt (mu_earth / r2)),
      abs_sub_comm (Real.sqrt (mu_earth / r1))
        (Real.sqrt (mu_earth * (2 / r1 - 1 / ((r1 + r2) / 2))))]
  · simp only [hohmann_core]
    rw [add_comm r2 r1]

/-- Witness for C5 at the LEO-to-GEO radii of Scenario B. -/
theorem hohmann_transfer_symmetric_witness :
    (0 : ℝ) < 7000 ∧ (0 : ℝ) < 42164 ∧
    ∃ f g, calculate_hohmann_transfer 7000 42164 = some f ∧
      calculate_hohmann_transfer 42164 7000 = some g ∧
      f.delta_v_total = g.delta_v_total ∧ f.transfer_time = g.transfer_time :=
  ⟨by norm_num, by norm_num,
    hohmann_transfer_symmetric 7000 42164 (by norm_num) (by norm_num)⟩

/-- C10: the eccentricity reported for a Hohmann transfer is (r2 - r1) divided
by (r2 + r1), which is strictly negative whenever r2 is smaller than r1 and so
falls outside the documented eccentricity range. -/
theorem hohmann_transfer_eccentricity (r1 r2 : ℝ) (h1 : 0 < r1) (h2 : 0 < r2) :
    ∃ f, calculate_hohmann_transfer r1 r2 = some f ∧
      f.eccentricity = (r2 - r1) / (r2 + r1) ∧ (r2 < r1 → f.eccentricity < 0) := by
  refine ⟨hohmann_core r1 r2, hohmann_defined h1 h2, by simp [hohmann_core], fun hlt => ?_⟩
  simp only [hohmann_core]
  exact div_neg_of_neg_of_pos (by linarith) (by linarith)

/-- Witness for C10 on an inward transfer, where the eccentricity is negative. -/
theorem hohmann_transfer_eccentricity_witness :
    (0 : ℝ) < 42164 ∧ (0 : ℝ) < 7000 ∧
    ∃ f, calculate_hohmann_transfer 42164 7000 = some f ∧
      f.eccentricity = (7000 - 42164) / (7000 + 42164) ∧
      ((7000 : ℝ) < 42164 → f.eccentricity < 0) :=
  ⟨by norm_num, by norm_num,
    hohmann_transfer_eccentricity 42164 7000 (by norm_num) (by norm_num)⟩

/-!  ## Claim C8: calculate_station_keeping  -/

/-- C8: for a physically meaningful current orbit, the total station-keeping
delta-v is the sum of the reported individual corrections, and no correction is
required exactly when the semi-major-axis difference is within 0.1 km, the
inclination difference within 0.1 degrees and the eccentricity difference
within 0.001. -/
theorem station_keeping_spec (c t : OrbitDict) (h : 0 < c.semi_major_axis) :
    ∃ res, calculate_station_keeping c t = some res ∧
      res.total_delta_v = res.sma_correction.getD 0 + res.inclination_correction.getD 0 +
        res.eccentricity_correction.getD 0 ∧
      (res.station_keeping_required = false ↔
        |t.semi_major_axis - c.semi_major_axis| ≤ 0.1 ∧
        |t.inclination - c.inclination| ≤ 0.1 ∧
        |t.eccentricity - c.eccentricity| ≤ 0.001) := by
  have hdi : (0.1 * Real.pi / 180 < |(t.inclination - c.inclination) * Real.pi / 180|) ↔
      0.1 < |t.inclination - c.inclination| := by
    rw [abs_div, abs_mul, abs_of_pos Real.pi_pos,
      abs_of_pos (by norm_num : (0 : ℝ) < 180), div_lt_div_iff_of_pos_right (by norm_num : (0 : ℝ) < 180)]
    exact mul_lt_mul_right Real.pi_pos
  unfold calculate_station_keeping
  rw [if_neg]
  · refine ⟨_, rfl, rfl, ?_⟩
    simp only [hdi, ← not_lt]
    by_cases ha : 0.1 < |t.semi_major_axis - c.semi_major_axis| <;>
      by_cases hi : 0.1 < |t.inclination - c.inclination| <;>
      by_cases he : 0.001 < |t.eccentricity - c.eccentricity| <;>
      simp [ha, hi, he]
  · rintro (⟨-, h0⟩ | ⟨-, h0⟩) <;> linarith

/-- Witness for C8 at a pair of identical circular orbits: no station keeping
is required and the total delta-v is the empty sum. -/
theorem station_keeping_spec_witness :
    0 < (OrbitDict.mk 7000 0.001 51.6).semi_major_axis ∧
    ∃ res, calculate_station_keeping (OrbitDict.mk 7000 0.001 51.6)
        (OrbitDict.mk 7000 0.001 51.6) = some res ∧
      res.total_delta_v = res.sma_correction.getD 0 + res.inclination_correction.getD 0 +
        res.eccentricity_correction.getD 0 ∧
      (res.station_keeping_required = false ↔
        |(OrbitDict.mk 7000 0.001 51.6).semi_major_axis -
            (OrbitDict.mk 7000 0.001 51.6).semi_major_axis| ≤ 0.1 ∧
        |(OrbitDict.mk 7000 0.001 51.6).inclination -
            (OrbitDict.mk 7000 0.001 51.6).inclination| ≤ 0.1 ∧
        |(OrbitDict.mk 7000 0.001 51.6).eccentricity -
            (OrbitDict.mk 7000 0.001 51.6).eccentricity| ≤ 0.001) :=
  ⟨by norm_num, station_keeping_spec _ _ (by norm_num)⟩

/-!  ## Claim C4: geodetic round trip in satellite_physics.py  -/

/-- Embedding of SatellitePhysicsEngine._lat_lng_alt_to_eci: spherical-Earth
conversion of an observer's geodetic coordinates to ECI. -/
noncomputable def lat_lng_alt_to_eci (lat lng alt : ℝ) : V3 :=
  let r := earth_radius + alt
  let lat_rad := lat * Real.pi / 180
  let lng_rad := lng * Real.pi / 180
  (r * Real.cos lat_rad * Real.cos lng_rad, r * Real.cos lat_rad * Real.sin lng_rad,
    r * Real.sin lat_rad)

/-- math.atan2 y x, as the argument of the complex number x + y i; like the
library function it takes values in the interval from -pi (exclusive, for
inputs off the negative real axis) to pi. -/
noncomputable def atan2 (y x : ℝ) : ℝ := Complex.arg (x + y * Complex.I)

/-- Embedding of SatellitePhysicsEngine._eci_to_lat_lng_alt: ECI position to
geocentric latitude, longitude and spherical altitude.  (At the zero vector
the source raises an uncaught ZeroDivisionError; the embedding is total there
but that input is excluded from every statement below.) -/
noncomputable def eci_to_lat_lng_alt (position : V3) : ℝ × ℝ × ℝ :=
  let x := position.1
  let y := position.2.1
  let z := position.2.2
  let r := Real.sqrt (x * x + y * y + z * z)
  (Real.arcsin (z / r) * 180 / Real.pi, atan2 y x * 180 / Real.pi, r - earth_radius)

/-- C4: for a geodetic point with latitude strictly inside (-90, 90) degrees,
longitude in (-180, 180] degrees and a positive geocentric radius, converting
to ECI and back returns exactly the original latitude, longitude and altitude
(the real-number idealisation of the tolerance stated in the specification). -/
theorem geodetic_round_trip (lat lng alt : ℝ)
    (h1 : -90 < lat) (h2 : lat < 90) (h3 : -180 < lng) (h4 : lng ≤ 180)
    (h5 : 0 < earth_radius + alt) :
    eci_to_lat_lng_alt (lat_lng_alt_to_eci lat lng alt) = (lat, lng, alt) := by
  have hπ := Real.pi_pos
  have hπne : Real.pi ≠ 0 := ne_of_gt hπ
  have e1 := Real.sin_sq_add_cos_sq (lat * Real.pi / 180)
  have e2 := Real.sin_sq_add_cos_sq (lng * Real.pi / 180)
  have hθlb : -(Real.pi / 2) < lat * Real.pi / 180 := by nlinarith
  have hθub : lat * Real.pi / 180 < Real.pi / 2 := by nlinarith
  have hφlb : -Real.pi < lng * Real.pi / 180 := by nlinarith
  have hφub : lng * Real.pi / 180 ≤ Real.pi := by nlinarith
  have hcos : 0 < Real.cos (lat * Real.pi / 180) :=
    Real.cos_pos_of_mem_Ioo ⟨hθlb, hθub⟩
  simp only [lat_lng_alt_to_eci, eci_to_lat_lng_alt]
  have hsum : (earth_radius + alt) * Real.cos (lat * Real.pi / 180) *
        Real.cos (lng * Real.pi / 180) *
        ((earth_radius + alt) * Real.cos (lat * Real.pi / 180) *
          Real.cos (lng * Real.pi / 180)) +
      (earth_radius + alt) * Real.cos (lat * Real.pi / 180) *
          Real.sin (lng * Real.pi / 180) *
        ((earth_radius + alt) * Real.cos (lat * Real.pi / 180) *
          Real.sin (lng * Real.pi / 180)) +
      (earth_radius + alt) * Real.sin (lat * Real.pi / 180) *
        ((earth_radius + alt) * Real.sin (lat * Real.pi / 180)) =
      (earth_radius + alt) ^ 2 := by
    linear_combination ((earth_radius + alt) ^ 2 * (Real.cos (lat * Real.pi / 180)) ^ 2) * e2 +
      (earth_radius + alt) ^ 2 * e1
  rw [hsum, Real.sqrt_sq h5.le]
  simp only [Prod.mk.injEq]
  refine ⟨?_, ?_, by ring⟩
  · rw [mul_div_cancel_left₀ _ (ne_of_gt h5), Real.arcsin_sin hθlb.le hθub.le]
    field_simp
  · have hmul : ((((earth_radius + alt) * Real.cos (lat * Real.pi / 180) *
          Real.cos (lng * Real.pi / 180) : ℝ)) : ℂ) +
        (((earth_radius + alt) * Real.cos (lat * Real.pi / 180) *
          Real.sin (lng * Real.pi / 180) : ℝ) : ℂ) * Complex.I =
        (((earth_radius + alt) * Real.cos (lat * Real.pi / 180) : ℝ) : ℂ) *
          (Complex.cos ((lng * Real.pi / 180 : ℝ) : ℂ) +
            Complex.sin ((lng * Real.pi / 180 : ℝ) : ℂ) * Complex.I) := by
      rw [← Complex.ofReal_cos, ← Complex.ofReal_sin]
      push_cast
      ring
    rw [atan2, hmul, Complex.arg_real_mul _ (by positivity),
      Complex.arg_cos_add_sin_mul_I (Set.mem_Ioc.mpr ⟨hφlb, hφub⟩)]
    field_simp

/-- Witness for C4 at the origin observer. -/
theorem geodetic_round_trip_witness :
    (-90 : ℝ) < 0 ∧ (0 : ℝ) < 90 ∧ (-180 : ℝ) < 0 ∧ (0 : ℝ) ≤ 180 ∧
      0 < earth_radius + 0 ∧
      eci_to_lat_lng_alt (lat_lng_alt_to_eci 0 0 0) = (0, 0, 0) :=
  ⟨by norm_num, by norm_num, by norm_num, by norm_num, by norm_num [earth_radius],
    geodetic_round_trip 0 0 0 (by norm_num) (by norm_num) (by norm_num) (by norm_num)
      (by norm_num [earth_radius])⟩

/-!  ## Pass prediction and coverage merging

The while loops of SatellitePhysicsEngine._find_pass_boundaries and
SatellitePhysicsEngine._calculate_satellite_passes step through time in whole
seconds (30 s, 60 s and 300 s increments), so time is modelled as an integer
count of seconds from the start of the search and angles as rationals.  The
SGP4 propagation and observer geometry that yield the elevation at a given
time (satellite.sgp4 followed by _calculate_elevation), the azimuth
(_calculate_azimuth) and the sun-based classification (_determine_pass_type)
are pure functions of the sample time for a fixed satellite and observer and
are abstracted as the function parameters elev, az and ptype; all loop,
interval and threshold logic is the source's.  The loop of
_calculate_satellite_passes is given a fuel argument bounding its iteration
count; every iteration advances time by at least 60 s, so any fuel of at least
(end_time - start_time) makes the bound inoperative and the function agrees
with the source's unbounded while loop.  -/

/-- The PassPrediction dataclass of satellite_physics.py.  Times are seconds,
duration is minutes, elevations are degrees. -/
structure PassPrediction where
  satellite_id : String
  satellite_name : String
  start_time : ℤ
  end_time : ℤ
  duration : ℚ
  max_elevation : ℚ
  azimuth : ℚ
  pass_type : String
deriving DecidableEq

/-- The while loop of _find_pass_boundaries.  State: current sample time, the
recorded pass start, the in_pass flag, the running maximum elevation and the
azimuth recorded at that maximum; stop is the end of the 30-minute search
window and the step is 30 s.  Returns (pass_start, pass_end, max_elevation,
azimuth); the loop breaks at the first sample below the threshold after the
pass began, and otherwise runs out of fuel or window with pass_end = none. -/
def find_boundaries_loop (elev az : ℤ → ℚ) (min_elevation : ℚ) (stop : ℤ) :
    ℕ → ℤ → Option ℤ → Bool → ℚ → ℚ → Option ℤ × Option ℤ × ℚ × ℚ
  | 0, _, pass_start, _, max_elev, azim => (pass_start, none, max_elev, azim)
  | fuel + 1, t, pass_start, in_pass, max_elev, azim =>
    if t < stop then
      if min_elevation ≤ elev t then
        find_boundaries_loop elev az min_elevation stop fuel (t + 30)
          (if in_pass then pass_start else some t) true
          (if max_elev < elev t then elev t else max_elev)
          (if max_elev < elev t then az t else azim)
      else if in_pass then (pass_start, some t, max_elev, azim)
      else find_boundaries_loop elev az min_elevation stop fuel (t + 30)
        pass_start false max_elev azim
    else (pass_start, none, max_elev, azim)

/-- Embedding of _find_pass_boundaries: a 30-minute window searched in 30 s
steps, hence exactly 60 iterations. -/
def find_pass_boundaries (elev az : ℤ → ℚ) (start_time : ℤ) (min_elevation : ℚ) :
    Option ℤ × Option ℤ × ℚ × ℚ :=
  find_boundaries_loop elev az min_elevation (start_time + 1800) 60 start_time none false 0 0

/-- The while loop of _calculate_satellite_passes: scan in one-minute steps;
on a sample at or above the threshold run the boundary search, and if it
returns both boundaries emit the pass and jump to five minutes past its end,
otherwise (and on samples below the threshold) advance one minute. -/
def calc_passes_loop (elev az : ℤ → ℚ) (ptype : ℤ → String) (sat_id sat_name : String)
    (min_elevation : ℚ) (end_time : ℤ) :
    ℕ → ℤ → List PassPrediction → List PassPrediction
  | 0, _, acc => acc
  | fuel + 1, t, acc =>
    if t < end_time then
      if min_elevation ≤ elev t then
        match find_pass_boundaries elev az t min_elevation with
        | (some pass_start, some pass_end, max_elev, azim) =>
          calc_passes_loop elev az ptype sat_id sat_name min_elevation end_time fuel
            (pass_end + 300)
            (acc ++ [{ satellite_id := sat_id, satellite_name := sat_name,
                       start_time := pass_start, end_time := pass_end,
                       duration := ((pass_end - pass_start : ℤ) : ℚ) / 60,
                       max_elevation := max_elev, azimuth := azim,
                       pass_type := ptype pass_start }])
        | _ =>
          calc_passes_loop elev az ptype sat_id sat_name min_elevation end_time fuel (t + 60) acc
      else
        calc_passes_loop elev az ptype sat_id sat_name min_elevation end_time fuel (t + 60) acc
    else acc

/-- Embedding of _calculate_satellite_passes over [start_time, end_time). -/
def calculate_satellite_passes (elev az : ℤ → ℚ) (ptype : ℤ → String)
    (sat_id sat_name : String) (min_elevation : ℚ) (start_time end_time : ℤ)
    (fuel : ℕ) : List PassPrediction :=
  calc_passes_loop elev az ptype sat_id sat_name min_elevation end_time fuel start_time []

/-- A merged coverage window of ConstellationManager._merge_coverage_periods:
start, end (seconds) and duration in minutes. -/
structure CoveragePeriod where
  period_start : ℤ
  period_end : ℤ
  duration : ℚ
deriving DecidableEq

/-- The for loop of _merge_coverage_periods over the remaining passes, carrying
the current window and the list of closed windows. -/
def merge_loop : List PassPrediction → ℤ → ℤ → List CoveragePeriod → List CoveragePeriod
  | [], current_start, current_end, merged =>
    merged ++ [⟨current_start, current_end, ((current_end - current_start : ℤ) : ℚ) / 60⟩]
  | p :: rest, current_start, current_end, merged =>
    if p.start_time ≤ current_end then
      merge_loop rest current_start (max current_end p.end_time) merged
    else
      merge_loop rest p.start_time p.end_time
        (merged ++ [⟨current_start, current_end, ((current_end - current_start : ℤ) : ℚ) / 60⟩])

/-- Embedding of ConstellationManager._merge_coverage_periods. -/
def merge_coverage_periods : List PassPrediction → List CoveragePeriod
  | [] => []
  | p :: rest => merge_loop rest p.start_time p.end_time []

/-- The total_coverage_time of calculate_coverage_pattern: the sum of the
duration entries of the merged coverage periods, in minutes. -/
def total_coverage_time (periods : List CoveragePeriod) : ℚ :=
  periods.foldr (fun p s => p.duration + s) 0

/-- Elevation profile used for the claim C6 counterexample: 10 degrees
everywhere except at three isolated 30-second-grid samples where it is 0; the
threshold is 10 degrees. -/
def cex_elev (t : ℤ) : ℚ := if t = 1770 ∨ t = 3270 ∨ t = 5340 then 0 else 10

/-- Constant azimuth used in concrete evaluations. -/
def cex_az (_t : ℤ) : ℚ := 0

/-- Constant pass classification used in concrete evaluations. -/
def cex_ptype (_t : ℤ) : String := "night"

/-- C6 (counterexample): over a one-hour horizon (3600 s starting at 0) the
pass search against cex_elev emits passes (0,1770), (2070,3270) and
(3570,5340) — the boundary search begun before the horizon's end runs up to 30
minutes past it — and the merged coverage windows total 79 minutes, exceeding
the claimed bound of 1 * 60 minutes for a one-hour horizon. -/
theorem coverage_exceeds_horizon_counterexample :
    (1 : ℚ) * 60 < total_coverage_time (merge_coverage_periods
      (calculate_satellite_passes cex_elev cex_az cex_ptype "sat-1" "SAT 1"
        10 0 3600 60)) := by
  have h : merge_coverage_periods
      (calculate_satellite_passes cex_elev cex_az cex_ptype "sat-1" "SAT 1" 10 0 3600 60) =
      [⟨0, 1770, ((1770 - 0 : ℤ) : ℚ) / 60⟩,
        ⟨2070, 3270, ((3270 - 2070 : ℤ) : ℚ) / 60⟩,
        ⟨3570, 5340, ((5340 - 3570 : ℤ) : ℚ) / 60⟩] := by rfl
  rw [h]
  norm_num [total_coverage_time]

/-!  ## Invariants of the pass search  -/

/-- Invariant of a pass emitted by the boundary search: it begins no earlier
than the scan origin, ends strictly after it begins and strictly inside the
30-minute window, its recorded peak elevation is at least the threshold and at
least the elevation at the start boundary, and the elevation at the end
boundary is strictly below the threshold. -/
lemma find_boundaries_loop_some (elev az : ℤ → ℚ) (min_elevation : ℚ) (stop t0 : ℤ) :
    ∀ (fuel : ℕ) (t : ℤ) (ps : Option ℤ) (in_pass : Bool) (me azim : ℚ),
      t0 ≤ t →
      (in_pass = true → ps.isSome = true) →
      (∀ s, ps = some s → t0 ≤ s ∧ s < t ∧ elev s ≤ me ∧ min_elevation ≤ me) →
      ∀ s e me' azim',
        find_boundaries_loop elev az min_elevation stop fuel t ps in_pass me azim =
          (some s, some e, me', azim') →
        t0 ≤ s ∧ s < e ∧ e < stop ∧ min_elevation ≤ me' ∧ elev s ≤ me' ∧
          elev e < min_elevation := by
  intro fuel
  induction fuel with
  | zero =>
    intro t ps in_pass me azim ht hin hps s e me' azim' heq
    simp [find_boundaries_loop] at heq
  | succ n ih =>
    intro t ps in_pass me azim ht hin hps s e me' azim' heq
    simp only [find_boundaries_loop] at heq
    split at heq
    · split at heq
      · -- sample at or above the threshold: the loop recurses with the pass begun
        rename_i hts hel
        refine ih (t + 30) _ true _ _ ?_ ?_ ?_ s e me' azim' heq
        · linarith
        · intro _
          cases in_pass with
          | false => simp
          | true => simpa using hin rfl
        · intro s1 hs1
          have hme_le : me ≤ (if me < elev t then elev t else me) := by
            by_cases hc : me < elev t
            · simp [hc]
              linarith
            · simp [hc]
          have hel_le : elev t ≤ (if me < elev t then elev t else me) := by
            by_cases hc : me < elev t <;> simp [hc]
            exact not_lt.mp hc
          cases in_pass with
          | false =>
            simp only [if_neg (by simp : ¬(false = true))] at hs1
            obtain rfl : t = s1 := by simpa using hs1
            exact ⟨ht, by linarith, hel_le, le_trans hel hel_le⟩
          | true =>
            simp only [if_pos rfl] at hs1
            obtain ⟨a1, a2, a3, a4⟩ := hps s1 hs1
            exact ⟨a1, by linarith, le_trans a3 hme_le, le_trans a4 hme_le⟩
      · split at heq
        · -- the first sample below the threshold after the pass began: the loop breaks
          rename_i hts hel hinp
          simp only [Prod.mk.injEq, Option.some.injEq] at heq
          obtain ⟨hps1, he1, hme1, -⟩ := heq
          obtain ⟨a1, a2, a3, a4⟩ := hps s hps1
          subst he1
          subst hme1
          exact ⟨a1, a2, hts, a4, a3, not_le.mp hel⟩
        · -- below the threshold before any pass: the loop recurses
          rename_i hts hel hinp
          refine ih (t + 30) ps false me azim (by linarith) (by simp) ?_ s e me' azim' heq
          intro s1 hs1
          obtain ⟨a1, a2, a3, a4⟩ := hps s1 hs1
          exact ⟨a1, by linarith, a3, a4⟩
    · simp at heq

/-- The boundary-search invariant at the top-level entry point
find_pass_boundaries. -/
lemma find_pass_boundaries_some (elev az : ℤ → ℚ) (t : ℤ) (min_elevation : ℚ)
    {s e : ℤ} {me azim : ℚ}
    (h : find_pass_boundaries elev az t min_elevation = (some s, some e, me, azim)) :
    t ≤ s ∧ s < e ∧ e < t + 1800 ∧ min_elevation ≤ me ∧ elev s ≤ me ∧
      elev e < min_elevation :=
  find_boundaries_loop_some elev az min_elevation (t + 1800) t 60 t none false 0 0
    le_rfl (by simp) (by simp) s e me azim h

/-- The per-pass invariant of the pass search over [t0, end_time): the pass
starts inside the horizon no earlier than t0, ends strictly after it starts
and before end_time + 1800 s (the boundary search may overrun the horizon by
up to its 30-minute window), its duration field is (end - start)/60 minutes,
and its peak elevation dominates the threshold and the elevations at both
boundaries. -/
def pass_ok (elev : ℤ → ℚ) (min_elevation : ℚ) (t0 end_time : ℤ)
    (p : PassPrediction) : Prop :=
  t0 ≤ p.start_time ∧ p.start_time < p.end_time ∧ p.end_time < end_time + 1800 ∧
    p.duration = ((p.end_time - p.start_time : ℤ) : ℚ) / 60 ∧
    min_elevation ≤ p.max_elevation ∧ elev p.start_time ≤ p.max_elevation ∧
    elev p.end_time ≤ p.max_elevation

/-- Loop invariant of _calculate_satellite_passes: every emitted pass satisfies
pass_ok and the emitted list is sorted by start time. -/
lemma calc_passes_loop_spec (elev az : ℤ → ℚ) (ptype : ℤ → String)
    (sat_id sat_name : String) (min_elevation : ℚ) (t0 end_time : ℤ) :
    ∀ (fuel : ℕ) (t : ℤ) (acc : List PassPrediction),
      t0 ≤ t →
      (∀ p ∈ acc, pass_ok elev min_elevation t0 end_time p ∧ p.end_time + 300 ≤ t) →
      List.Pairwise (fun p q => p.start_time ≤ q.start_time) acc →
      (∀ p ∈ calc_passes_loop elev az ptype sat_id sat_name min_elevation end_time
          fuel t acc, pass_ok elev min_elevation t0 end_time p) ∧
        List.Pairwise (fun p q => p.start_time ≤ q.start_time)
          (calc_passes_loop elev az ptype sat_id sat_name min_elevation end_time
            fuel t acc) := by
  intro fuel
  induction fuel with
  | zero =>
    intro t acc ht hacc hsort
    simp only [calc_passes_loop]
    exact ⟨fun p hp => (hacc p hp).1, hsort⟩
  | succ n ih =>
    intro t acc ht hacc hsort
    simp only [calc_passes_loop]
    split
    · split
      · rename_i hte hel
        split
        · rename_i pass_start pass_end max_elev azim heq
          obtain ⟨hb1, hb2, hb3, hb4, hb5, hb6⟩ :=
            find_pass_boundaries_some elev az t min_elevation heq
          apply ih (pass_end + 300) _ (by linarith) ?_ ?_
          · intro p hp
            rcases List.mem_append.mp hp with hpa | hpn
            · obtain ⟨hok, hle⟩ := hacc p hpa
              exact ⟨hok, by linarith⟩
            · obtain rfl : p = _ := by simpa using hpn
              refine ⟨⟨by linarith, hb2, by linarith, by push_cast; ring, hb4, hb5, ?_⟩, le_refl _⟩
              exact le_of_lt (lt_of_lt_of_le hb6 hb4)
          · rw [List.pairwise_append]
            refine ⟨hsort, by simp, ?_⟩
            intro p hpa q hq
            obtain rfl : q = _ := by simpa using hq
            obtain ⟨hok, hle⟩ := hacc p hpa
            have := hok.2.1
            show p.start_time ≤ pass_start
            linarith
        · exact ih (t + 60) acc (by linarith)
            (fun p hp => ⟨(hacc p hp).1, by linarith [(hacc p hp).2]⟩) hsort
      · exact ih (t + 60) acc (by linarith)
          (fun p hp => ⟨(hacc p hp).1, by linarith [(hacc p hp).2]⟩) hsort
    · exact ⟨fun p hp => (hacc p hp).1, hsort⟩

/-- The pass-search invariant at the top-level entry point. -/
lemma calculate_satellite_passes_spec (elev az : ℤ → ℚ) (ptype : ℤ → String)
    (sat_id sat_name : String) (min_elevation : ℚ) (start_time end_time : ℤ)
    (fuel : ℕ) :
    (∀ p ∈ calculate_satellite_passes elev az ptype sat_id sat_name min_elevation
        start_time end_time fuel,
      pass_ok elev min_elevation start_time end_time p) ∧
      List.Pairwise (fun p q => p.start_time ≤ q.start_time)
        (calculate_satellite_passes elev az ptype sat_id sat_name min_elevation
          start_time end_time fuel) :=
  calc_passes_loop_spec elev az ptype sat_id sat_name min_elevation start_time
    end_time fuel start_time [] le_rfl (by simp) (by simp)

/-- C7: every emitted PassPrediction has start strictly before end, duration
equal to (end - start) in minutes, peak elevation at least the configured
minimum, and peak elevation at least the elevation at both pass boundaries. -/
theorem pass_prediction_invariants (elev az : ℤ → ℚ) (ptype : ℤ → String)
    (sat_id sat_name : String) (min_elevation : ℚ) (start_time end_time : ℤ)
    (fuel : ℕ) (p : PassPrediction)
    (hp : p ∈ calculate_satellite_passes elev az ptype sat_id sat_name
      min_elevation start_time end_time fuel) :
    p.start_time < p.end_time ∧
      p.duration = ((p.end_time - p.start_time : ℤ) : ℚ) / 60 ∧
      min_elevation ≤ p.max_elevation ∧
      elev p.start_time ≤ p.max_elevation ∧ elev p.end_time ≤ p.max_elevation := by
  obtain ⟨-, h2, -, h4, h5, h6, h7⟩ :=
    (calculate_satellite_passes_spec elev az ptype sat_id sat_name min_elevation
      start_time end_time fuel).1 p hp
  exact ⟨h2, h4, h5, h6, h7⟩

/-- Elevation profile of the witnesses: one pass from 0 s to 60 s. -/
def wit_elev (t : ℤ) : ℚ := if t < 60 then 10 else 0

/-- The single pass the search emits against wit_elev over [0, 120). -/
def wit_pass : PassPrediction :=
  { satellite_id := "sat-1", satellite_name := "SAT 1", start_time := 0,
    end_time := 60, duration := ((60 - 0 : ℤ) : ℚ) / 60, max_elevation := 10,
    azimuth := 0, pass_type := "night" }

/-- Witness for C7 at the concrete profile wit_elev. -/
theorem pass_prediction_invariants_witness :
    wit_pass ∈ calculate_satellite_passes wit_elev cex_az cex_ptype "sat-1" "SAT 1"
        10 0 120 2 ∧
      (wit_pass.start_time < wit_pass.end_time ∧
        wit_pass.duration = ((wit_pass.end_time - wit_pass.start_time : ℤ) : ℚ) / 60 ∧
        (10 : ℚ) ≤ wit_pass.max_elevation ∧
        wit_elev wit_pass.start_time ≤ wit_pass.max_elevation ∧
        wit_elev wit_pass.end_time ≤ wit_pass.max_elevation) := by
  have hlist : calculate_satellite_passes wit_elev cex_az cex_ptype "sat-1" "SAT 1"
      10 0 120 2 = [wit_pass] := by rfl
  have hmem : wit_pass ∈ calculate_satellite_passes wit_elev cex_az cex_ptype
      "sat-1" "SAT 1" 10 0 120 2 := by
    rw [hlist]
    exact List.mem_singleton_self _
  exact ⟨hmem, pass_prediction_invariants wit_elev cex_az cex_ptype "sat-1" "SAT 1"
    10 0 120 2 wit_pass hmem⟩

/-!  ## Invariants of the coverage merge  -/

lemma total_coverage_time_append (l1 l2 : List CoveragePeriod) :
    total_coverage_time (l1 ++ l2) = total_coverage_time l1 + total_coverage_time l2 := by
  induction l1 with
  | nil => simp [total_coverage_time]
  | cons a l ih =>
    simp only [List.cons_append, total_coverage_time, List.foldr_cons] at ih ⊢
    rw [ih]
    ring

lemma total_coverage_time_singleton (w : CoveragePeriod) :
    total_coverage_time [w] = w.duration := by
  simp [total_coverage_time]

/-- The windows produced by the merge loop are strictly separated: each
window's start is strictly after the previous window's end. -/
lemma merge_loop_chain :
    ∀ (rest : List PassPrediction) (current_start current_end : ℤ)
      (merged : List CoveragePeriod),
      (∀ p ∈ rest, p.start_time ≤ p.end_time) →
      List.Chain' (fun w1 w2 => w1.period_end < w2.period_start) merged →
      (∀ w ∈ merged, w.period_end < current_start) →
      current_start ≤ current_end →
      List.Chain' (fun w1 w2 => w1.period_end < w2.period_start)
        (merge_loop rest current_start current_end merged) := by
  intro rest
  induction rest with
  | nil =>
    intro cs ce merged hse hchain hlt hce
    simp only [merge_loop]
    refine List.chain'_append.mpr ⟨hchain, List.chain'_singleton _, ?_⟩
    intro x hx y hy
    obtain rfl : _ = y := by simpa using hy
    obtain ⟨hne, rfl⟩ := List.mem_getLast?_eq_getLast hx
    exact hlt _ (List.getLast_mem hne)
  | cons p rest ih =>
    intro cs ce merged hse hchain hlt hce
    simp only [merge_loop]
    split
    · exact ih cs (max ce p.end_time) merged (fun q hq => hse q (List.mem_cons_of_mem _ hq))
        hchain hlt (le_trans hce (le_max_left _ _))
    · rename_i hgt
      refine ih p.start_time p.end_time _ (fun q hq => hse q (List.mem_cons_of_mem _ hq))
        ?_ ?_ (hse p (List.mem_cons_self _ _))
      · refine List.chain'_append.mpr ⟨hchain, List.chain'_singleton _, ?_⟩
        intro x hx y hy
        obtain rfl : _ = y := by simpa using hy
        obtain ⟨hne, rfl⟩ := List.mem_getLast?_eq_getLast hx
        exact hlt _ (List.getLast_mem hne)
      · intro w hw
        rcases List.mem_append.mp hw with hwa | hwn
        · have := hlt w hwa
          have := not_le.mp hgt
          linarith
        · obtain rfl : w = _ := by simpa using hwn
          exact not_le.mp hgt

/-- The summed duration of the merged windows is at most the span from the
current window's start to any common upper bound T on all interval ends,
divided into minutes. -/
lemma merge_loop_sum :
    ∀ (rest : List PassPrediction) (current_start current_end : ℤ)
      (merged : List CoveragePeriod) (T : ℤ),
      current_end ≤ T →
      (∀ p ∈ rest, p.end_time ≤ T) →
      (∀ p ∈ rest, current_start ≤ p.start_time) →
      List.Pairwise (fun p q => p.start_time ≤ q.start_time) rest →
      total_coverage_time (merge_loop rest current_start current_end merged) ≤
        total_coverage_time merged + ((T - current_start : ℤ) : ℚ) / 60 := by
  intro rest
  induction rest with
  | nil =>
    intro cs ce merged T hceT hend hstart hsort
    simp only [merge_loop]
    rw [total_coverage_time_append, total_coverage_time_singleton]
    have hc : ((ce - cs : ℤ) : ℚ) ≤ ((T - cs : ℤ) : ℚ) := by
      exact_mod_cast sub_le_sub_right hceT cs
    have h60 : ((ce - cs : ℤ) : ℚ) / 60 ≤ ((T - cs : ℤ) : ℚ) / 60 :=
      (div_le_div_iff_of_pos_right (by norm_num)).mpr hc
    linarith
  | cons p rest ih =>
    intro cs ce merged T hceT hend hstart hsort
    obtain ⟨hrel, htail⟩ := List.pairwise_cons.mp hsort
    simp only [merge_loop]
    split
    · exact ih cs (max ce p.end_time) merged T
        (max_le hceT (hend p (List.mem_cons_self _ _)))
        (fun q hq => hend q (List.mem_cons_of_mem _ hq))
        (fun q hq => le_trans (hstart p (List.mem_cons_self _ _)) (hrel q hq))
        htail
    · rename_i hgt
      have h1 := ih p.start_time p.end_time
        (merged ++ [⟨cs, ce, ((ce - cs : ℤ) : ℚ) / 60⟩]) T
        (hend p (List.mem_cons_self _ _))
        (fun q hq => hend q (List.mem_cons_of_mem _ hq)) hrel htail
      rw [total_coverage_time_append, total_coverage_time_singleton] at h1
      have hcs : ((ce : ℚ)) < ((p.start_time : ℚ)) := by
        exact_mod_cast not_le.mp hgt
      push_cast at h1 ⊢
      linarith

/-- Merged coverage windows are pairwise non-overlapping and non-adjacent. -/
lemma merge_coverage_periods_chain (passes : List PassPrediction)
    (hse : ∀ p ∈ passes, p.start_time ≤ p.end_time) :
    List.Chain' (fun w1 w2 => w1.period_end < w2.period_start)
      (merge_coverage_periods passes) := by
  cases passes with
  | nil => simp [merge_coverage_periods]
  | cons p rest =>
    simp only [merge_coverage_periods]
    exact merge_loop_chain rest p.start_time p.end_time []
      (fun q hq => hse q (List.mem_cons_of_mem _ hq)) List.chain'_nil (by simp)
      (hse p (List.mem_cons_self _ _))

/-- Total merged coverage is bounded by the span containing all passes. -/
lemma merge_coverage_periods_sum (passes : List PassPrediction) (t0 T : ℤ)
    (hT : t0 ≤ T)
    (hs : ∀ p ∈ passes, t0 ≤ p.start_time ∧ p.end_time ≤ T)
    (hsort : List.Pairwise (fun p q => p.start_time ≤ q.start_time) passes) :
    total_coverage_time (merge_coverage_periods passes) ≤ ((T - t0 : ℤ) : ℚ) / 60 := by
  cases passes with
  | nil =>
    simp only [merge_coverage_periods, total_coverage_time, List.foldr_nil]
    have h0 : (0 : ℚ) ≤ ((T - t0 : ℤ) : ℚ) := by
      exact_mod_cast sub_nonneg.mpr hT
    positivity
  | cons p rest =>
    obtain ⟨hrel, htail⟩ := List.pairwise_cons.mp hsort
    have h1 := merge_loop_sum rest p.start_time p.end_time [] T
      ((hs p (List.mem_cons_self _ _)).2)
      (fun q hq => (hs q (List.mem_cons_of_mem _ hq)).2) hrel htail
    simp only [merge_coverage_periods]
    have h2 : total_coverage_time ([] : List CoveragePeriod) = 0 := by
      simp [total_coverage_time]
    rw [h2] at h1
    have hst : ((t0 : ℚ)) ≤ ((p.start_time : ℚ)) := by
      exact_mod_cast (hs p (List.mem_cons_self _ _)).1
    push_cast at h1 ⊢
    linarith

/-- C6 (amended): for any coverage query over [t0, end_time], merging the
passes gathered from per-satellite searches and sorted by start time yields
windows that are pairwise non-overlapping and non-adjacent (each window's
start is strictly after the previous window's end), and the total merged
duration is at most the horizon plus 30 minutes — the boundary search may run
up to its 30-minute fine-search window past the horizon, so the H * 60 minute
bound of the original claim can be exceeded, but never by more than 30
minutes. -/
theorem coverage_merge_amended (t0 end_time : ℤ) (h : t0 ≤ end_time)
    (passes : List PassPrediction)
    (hsort : List.Pairwise (fun p q => p.start_time ≤ q.start_time) passes)
    (hsrc : ∀ p ∈ passes, ∃ elev az ptype sat_id sat_name min_elevation fuel,
      p ∈ calculate_satellite_passes elev az ptype sat_id sat_name min_elevation
        t0 end_time fuel) :
    List.Chain' (fun w1 w2 => w1.period_end < w2.period_start)
      (merge_coverage_periods passes) ∧
    total_coverage_time (merge_coverage_periods passes) ≤
      ((end_time - t0 : ℤ) : ℚ) / 60 + 30 := by
  have hb : ∀ p ∈ passes, t0 ≤ p.start_time ∧ p.start_time ≤ p.end_time ∧
      p.end_time ≤ end_time + 1800 := by
    intro p hp
    obtain ⟨elev, az, ptype, sat_id, sat_name, min_elevation, fuel, hmem⟩ := hsrc p hp
    obtain ⟨h1, h2, h3, -, -, -, -⟩ :=
      (calculate_satellite_passes_spec elev az ptype sat_id sat_name min_elevation
        t0 end_time fuel).1 p hmem
    exact ⟨h1, h2.le, by linarith⟩
  refine ⟨merge_coverage_periods_chain passes (fun p hp => (hb p hp).2.1), ?_⟩
  have hsum := merge_coverage_periods_sum passes t0 (end_time + 1800) (by linarith)
    (fun p hp => ⟨(hb p hp).1, (hb p hp).2.2⟩) hsort
  have heq : ((end_time + 1800 - t0 : ℤ) : ℚ) / 60 = ((end_time - t0 : ℤ) : ℚ) / 60 + 30 := by
    push_cast
    ring
  rw [heq] at hsum
  exact hsum

/-- Witness for the amended C6 at the concrete profile wit_elev over a
two-minute horizon. -/
theorem coverage_merge_amended_witness :
    (0 : ℤ) ≤ 120 ∧
    List.Chain' (fun w1 w2 => w1.period_end < w2.period_start)
      (merge_coverage_periods (calculate_satellite_passes wit_elev cex_az cex_ptype
        "sat-1" "SAT 1" 10 0 120 2)) ∧
    total_coverage_time (merge_coverage_periods (calculate_satellite_passes wit_elev
      cex_az cex_ptype "sat-1" "SAT 1" 10 0 120 2)) ≤ ((120 - 0 : ℤ) : ℚ) / 60 + 30 := by
  have hlist : calculate_satellite_passes wit_elev cex_az cex_ptype "sat-1" "SAT 1"
      10 0 120 2 = [wit_pass] := by rfl
  have h := coverage_merge_amended 0 120 (by norm_num) _
    (by rw [hlist]; exact List.pairwise_singleton _ _)
    (fun p hp => ⟨wit_elev, cex_az, cex_ptype, "sat-1", "SAT 1", 10, 2, hp⟩)
  exact ⟨by norm_num, h.1, h.2⟩

end Nebula
